import Mathlib

/-!
hw_3: process and host snapshot printed as JSON

A shallow embedding of `src/hw_3/main.go`.

The program is a straight line: five collector methods fill two records from
operating-system and runtime queries, the records are wrapped in a `Result`,
serialised with `json.MarshalIndent` and printed with `fmt.Println`.  Any error
returned by a collector ends the run through `log.Fatalf`.

Modelling decisions

* The operating system and the Go runtime are a read-only `Host`: one field per
  query the program makes, holding what that query answers.  The three queries
  that have an error result in Go answer an `Except GoError _`; the two that have
  none (`runtime.ReadMemStats`, `runtime.NumCPU`) answer a plain value.  The
  command line and the environment variables are part of the `Host` as well, so
  that "is not consulted" is a statement and not a convention.  The code of
  `main.go` reads neither; the library behind `mem.VirtualMemory` does read one
  environment variable, `HOST_PROC`, the directory whose file `meminfo` it
  parses, and the model follows it.
* Effects are explicit: a `Run` records the queries made so far (in order), the
  values handed to `json.MarshalIndent`, the bytes written to standard output and
  the diagnostics written by the logger.  `main` returns an `Outcome`, a `Run`
  with the exit code.  Every collector makes exactly one query, as its first
  action, so the queries recorded are the collectors that were invoked.
* `uint64` fields are `Nat`, the `int` field is `Int`; the program only copies
  these values, it does no arithmetic on them.
* Go strings are Lean `String`s (valid Unicode).
* The logger prints a time stamp before each message; the time stamp is not
  modelled, a diagnostic is the format string and its operand.
-/

namespace HW3

/-! ## Values of the libraries the program calls -/

/-- A Go `error` value that is not nil.  Only the text `Error()` returns is
observable by this program (it is what the verb `%v` prints). -/
structure GoError where
  msg : String
deriving DecidableEq, Repr

/-- The struct `syscall.Rlimit`. -/
structure Rlimit where
  Cur : Nat
  Max : Nat
deriving DecidableEq, Repr

/-- The struct `runtime.MemStats`, restricted to the fields the program reads (in the order
of their declaration in the Go runtime). -/
structure MemStats where
  Alloc : Nat
  TotalAlloc : Nat
  Sys : Nat
  HeapAlloc : Nat
  HeapSys : Nat
  HeapIdle : Nat
  HeapInuse : Nat
  HeapReleased : Nat
  StackInuse : Nat
  StackSys : Nat
deriving DecidableEq, Repr

/-- The struct `mem.VirtualMemoryStat` of gopsutil, restricted to the fields the program
reads. -/
structure VirtualMemoryStat where
  Total : Nat
  Used : Nat
  Active : Nat
deriving DecidableEq, Repr

/-- The constant `syscall.RLIMIT_NOFILE` (its value on Linux). -/
def RLIMIT_NOFILE : Nat := 7

/-- What the operating system and the runtime answer during one run. -/
structure Host where
  /-- The command line `os.Args`: never read by the program. -/
  args : List String
  /-- The environment `os.Environ()`: never read by the code of `main.go`; the
  library behind `mem.VirtualMemory` looks up `HOST_PROC` in it. -/
  environ : List (String × String)
  /-- The answer of `os.Executable()`. -/
  Executable : Except GoError String
  /-- The answer of `runtime.ReadMemStats(&m)`, which has no error result. -/
  ReadMemStats : MemStats
  /-- The answer of `syscall.Getrlimit(resource, &rlimit)`, per resource. -/
  Getrlimit : Nat → Except GoError Rlimit
  /-- The memory figures gopsutil finds in the file `meminfo` of a directory, or
  the error of reading it. -/
  meminfo : String → Except GoError VirtualMemoryStat
  /-- The answer of `runtime.NumCPU()`, which has no error result; its Go type is `int`. -/
  NumCPU : Int

/-- Go `os.Getenv(key)`: the value of the first entry with that key, the empty
string when there is none. -/
def os_Getenv (h : Host) (key : String) : String :=
  ((h.environ.find? (fun kv => kv.1 == key)).map Prod.snd).getD ""

/-- The directory `common.HostProc()` of gopsutil: the value of the environment
variable `HOST_PROC`, and `/proc` when it is unset or empty. -/
def common_HostProc (h : Host) : String :=
  if os_Getenv h "HOST_PROC" = "" then "/proc" else os_Getenv h "HOST_PROC"

/-- The answer of `mem.VirtualMemory()`: the figures of the file `meminfo` in the
directory `common.HostProc()`. -/
def Host.VirtualMemory (h : Host) : Except GoError VirtualMemoryStat :=
  h.meminfo (common_HostProc h)

/-! ## Data model (main.go, lines 50-87 and 136-145) -/

/-- The anonymous struct of `Process.Descriptor`. -/
structure ProcessDescriptor where
  SoftMax : Nat
  HardMax : Nat
deriving DecidableEq, Repr

/-- The anonymous struct of `Process.Mem.Heap`. -/
structure ProcessMemHeap where
  Alloc : Nat
  Sys : Nat
  Inuse : Nat
  Idle : Nat
  Released : Nat
deriving DecidableEq, Repr

/-- The anonymous struct of `Process.Mem.Stack`. -/
structure ProcessMemStack where
  Sys : Nat
  Inuse : Nat
deriving DecidableEq, Repr

/-- The anonymous struct of `Process.Mem`. -/
structure ProcessMem where
  Heap : ProcessMemHeap
  Stack : ProcessMemStack
  Sys : Nat
  Alloc : Nat
  TotalAlloc : Nat
deriving DecidableEq, Repr

/-- The struct `type Process struct`. -/
structure Process where
  Path : String
  Descriptor : ProcessDescriptor
  Mem : ProcessMem
deriving DecidableEq, Repr

/-- The anonymous struct of `System.Processor`. -/
structure SystemProcessor where
  NumCPU : Int
deriving DecidableEq, Repr

/-- The anonymous struct of `System.Mem`. -/
structure SystemMem where
  Active : Nat
  Used : Nat
  Total : Nat
deriving DecidableEq, Repr

/-- The struct `type System struct`. -/
structure System where
  Processor : SystemProcessor
  Mem : SystemMem
deriving DecidableEq, Repr

/-- The struct `type Result struct`.  The two fields are pointers in Go; `main` fills them
with the objects made by `NewProcess` and `NewSystem`, which are never nil. -/
structure Result where
  Process : Process
  System : System
deriving DecidableEq, Repr

/-- Go `func NewProcess() *Process`: a zero-valued `Process`. -/
def NewProcess : Process :=
  { Path := ""
    Descriptor := { SoftMax := 0, HardMax := 0 }
    Mem :=
      { Heap := { Alloc := 0, Sys := 0, Inuse := 0, Idle := 0, Released := 0 }
        Stack := { Sys := 0, Inuse := 0 }
        Sys := 0, Alloc := 0, TotalAlloc := 0 } }

/-- Go `func NewSystem() *System`: a zero-valued `System`. -/
def NewSystem : System :=
  { Processor := { NumCPU := 0 }
    Mem := { Active := 0, Used := 0, Total := 0 } }

/-! ## Effects of a run -/

/-- The queries the program can make to the host. -/
inductive Query where
  | Executable
  | ReadMemStats
  | Getrlimit (resource : Nat)
  | VirtualMemory
  | NumCPU
deriving DecidableEq, Repr

/-- One call of `log.Fatalf(format, err)`. -/
structure Diagnostic where
  format : String
  err : GoError
deriving DecidableEq, Repr

/-- The effects of a run so far. -/
structure Run where
  /-- The host queries made, oldest first. -/
  queries : List Query
  /-- The values handed to `json.MarshalIndent`, oldest first. -/
  marshalled : List Result
  /-- The bytes written to standard output. -/
  stdout : String
  /-- The diagnostics written to standard error by the logger, oldest first. -/
  stderr : List Diagnostic
deriving DecidableEq, Repr

/-- A finished run. -/
structure Outcome extends Run where
  exitCode : Nat
deriving DecidableEq, Repr

/-- The state at the entry of `main`. -/
def Run.start : Run :=
  { queries := [], marshalled := [], stdout := "", stderr := [] }

/-- Records a query. -/
def Run.ask (r : Run) (q : Query) : Run :=
  { r with queries := r.queries ++ [q] }

/-- Go `os.Executable()`. -/
def os_Executable (h : Host) (r : Run) : Except GoError String × Run :=
  (h.Executable, r.ask .Executable)

/-- Go `runtime.ReadMemStats(&memStats)`. -/
def runtime_ReadMemStats (h : Host) (r : Run) : MemStats × Run :=
  (h.ReadMemStats, r.ask .ReadMemStats)

/-- Go `syscall.Getrlimit(resource, &rlimit)`. -/
def syscall_Getrlimit (resource : Nat) (h : Host) (r : Run) : Except GoError Rlimit × Run :=
  (h.Getrlimit resource, r.ask (.Getrlimit resource))

/-- Go `mem.VirtualMemory()`. -/
def mem_VirtualMemory (h : Host) (r : Run) : Except GoError VirtualMemoryStat × Run :=
  (h.VirtualMemory, r.ask .VirtualMemory)

/-- Go `runtime.NumCPU()`. -/
def runtime_NumCPU (h : Host) (r : Run) : Int × Run :=
  (h.NumCPU, r.ask .NumCPU)

/-- Go `log.Fatalf(format, err)`: writes the diagnostic to standard error and ends
the process with `os.Exit(1)`. -/
def log_Fatalf (format : String) (err : GoError) (r : Run) : Outcome :=
  { r with stderr := r.stderr ++ [{ format := format, err := err }], exitCode := 1 }

/-- Go `fmt.Println(s)`: writes `s` and a newline to standard output. -/
def fmt_Println (s : String) (r : Run) : Run :=
  { r with stdout := r.stdout ++ s ++ "\n" }

/-- The operand substitution of `fmt.Sprintf` for a format with the verb `%v`
and one `error` operand: the first `%v` becomes the text of the error. -/
def sprintfChars : List Char → String → List Char
  | [], _ => []
  | '%' :: 'v' :: rest, arg => arg.data ++ rest
  | c :: rest, arg => c :: sprintfChars rest arg

/-- The message of a diagnostic, as the logger prints it after its time stamp. -/
def Diagnostic.message (d : Diagnostic) : String :=
  ⟨sprintfChars d.format.data d.err.msg⟩

/-! ## The JSON encoder (`encoding/json`) -/

/-- A JSON value of one of the kinds the program produces: strings, unsigned and
signed integers, and objects with ordered members. -/
inductive JSON where
  | str (s : String)
  | uint (n : Nat)
  | int (i : Int)
  | obj (members : List (String × JSON))

/-- A lower-case hexadecimal digit. -/
def hexDigit (n : Nat) : Char :=
  "0123456789abcdef".data.getD n '0'

/-- The encoding of one character inside a JSON string, as `json.Marshal` does
it (HTML escaping is on): the quote and the backslash get a backslash, newline,
carriage return and tab have short escapes, the other control characters and
`<`, `>`, `&` become `\u00XX`, the separators U+2028 and U+2029 become `\u202X`,
every other character stands for itself.  (Go releases from 1.22 on also have
short escapes for backspace and form feed; no property below depends on it.) -/
def escapeChar (c : Char) : List Char :=
  if c = '"' ∨ c = '\\' then ['\\', c]
  else if c = '\n' then ['\\', 'n']
  else if c = '\r' then ['\\', 'r']
  else if c = '\t' then ['\\', 't']
  else if c.toNat < 0x20 ∨ c = '<' ∨ c = '>' ∨ c = '&' then
    ['\\', 'u', '0', '0', hexDigit (c.toNat / 16), hexDigit (c.toNat % 16)]
  else if c.toNat = 0x2028 ∨ c.toNat = 0x2029 then
    ['\\', 'u', '2', '0', '2', hexDigit (c.toNat % 16)]
  else [c]

/-- The contents of a JSON string, escaped. -/
def escapeChars : List Char → List Char
  | [] => []
  | c :: cs => escapeChar c ++ escapeChars cs

/-- A JSON string: the escaped contents between double quotes. -/
def quote (s : String) : String :=
  "\"" ++ ⟨escapeChars s.data⟩ ++ "\""

/-- Decimal text of an unsigned integer (`strconv.AppendUint`, base 10). -/
def formatUint (n : Nat) : String :=
  Nat.repr n

/-- Decimal text of a signed integer (`strconv.AppendInt`, base 10). -/
def formatInt : Int → String
  | .ofNat n => Nat.repr n
  | .negSucc n => "-" ++ Nat.repr (n + 1)

/-- The text `depth` copies of `indent`. -/
def indentation (indent : String) : Nat → String
  | 0 => ""
  | d + 1 => indentation indent d ++ indent

/-- The start of a new line inside an indented document: a newline, the line
lead `pfx` and `depth` copies of `indent`. -/
def newline (pfx indent : String) (depth : Nat) : String :=
  "\n" ++ pfx ++ indentation indent depth

mutual
/-- The indented text of a JSON value at nesting `depth`, as `json.Indent`
lays it out: every member of an object starts on a line of its own, one level
deeper than the object; a colon is followed by one space; the closing brace is
on a line of its own at the level of the object; an empty object is `{}`. -/
def JSON.indent (pfx indent : String) (depth : Nat) : JSON → String
  | .str s => quote s
  | .uint n => formatUint n
  | .int i => formatInt i
  | .obj [] => "\x7b\x7d"
  | .obj (m :: ms) =>
      "\x7b" ++ newline pfx indent (depth + 1)
        ++ JSON.indentMembers pfx indent (depth + 1) (m :: ms)
        ++ newline pfx indent depth ++ "\x7d"
/-- The members of an object, separated by a comma and a new line. -/
def JSON.indentMembers (pfx indent : String) (depth : Nat) : List (String × JSON) → String
  | [] => ""
  | [(k, v)] => quote k ++ ": " ++ JSON.indent pfx indent depth v
  | (k, v) :: m :: ms =>
      quote k ++ ": " ++ JSON.indent pfx indent depth v ++ ","
        ++ newline pfx indent depth ++ JSON.indentMembers pfx indent depth (m :: ms)
end

/-- The member of an object with the given key (the first one). -/
def JSON.get? : JSON → String → Option JSON
  | .obj members, k => (members.find? (fun m => m.1 == k)).map Prod.snd
  | _, _ => none

/-- The value reached from a JSON value by a path of keys. -/
def JSON.at? : JSON → List String → Option JSON
  | j, [] => some j
  | j, k :: ks => (j.get? k).bind (fun v => v.at? ks)

/-- The key structure of a JSON value: for every object the keys of its
members in order, each with the key structure of its value. -/
inductive Keys where
  | leaf
  | node (members : List (String × Keys))
deriving Repr

mutual
/-- The key structure of a JSON value. -/
def JSON.keys : JSON → Keys
  | .str _ => .leaf
  | .uint _ => .leaf
  | .int _ => .leaf
  | .obj members => .node (JSON.memberKeys members)
/-- The key structure of the members of an object. -/
def JSON.memberKeys : List (String × JSON) → List (String × Keys)
  | [] => []
  | (k, v) :: ms => (k, JSON.keys v) :: JSON.memberKeys ms
end

/-- The JSON value of a `Process`, by its field tags (main.go, lines 55-87). -/
def Process.toJSON (p : Process) : JSON :=
  .obj
    [ ("path", .str p.Path),
      ("descriptor", .obj
        [ ("soft_max", .uint p.Descriptor.SoftMax),
          ("hard_max", .uint p.Descriptor.HardMax) ]),
      ("mem", .obj
        [ ("heap", .obj
            [ ("alloc", .uint p.Mem.Heap.Alloc),
              ("sys", .uint p.Mem.Heap.Sys),
              ("inuse", .uint p.Mem.Heap.Inuse),
              ("idle", .uint p.Mem.Heap.Idle),
              ("released", .uint p.Mem.Heap.Released) ]),
          ("stack", .obj
            [ ("sys", .uint p.Mem.Stack.Sys),
              ("inuse", .uint p.Mem.Stack.Inuse) ]),
          ("sys", .uint p.Mem.Sys),
          ("alloc", .uint p.Mem.Alloc),
          ("total_alloc", .uint p.Mem.TotalAlloc) ]) ]

/-- The JSON value of a `System`, by its field tags (main.go, lines 136-145). -/
def System.toJSON (s : System) : JSON :=
  .obj
    [ ("processor", .obj [ ("num_cpu", .int s.Processor.NumCPU) ]),
      ("mem", .obj
        [ ("active", .uint s.Mem.Active),
          ("used", .uint s.Mem.Used),
          ("total", .uint s.Mem.Total) ]) ]

/-- The JSON value of a `Result`, by its field tags (main.go, lines 50-53). -/
def Result.toJSON (res : Result) : JSON :=
  .obj [ ("process", res.Process.toJSON), ("system", res.System.toJSON) ]

/-- Go `json.MarshalIndent(result, pfx, indent)` for a `Result`.  The encoder
has an error result; for a `Result` (strings and integers in nested structs) it
has nothing to refuse and answers the indented text. -/
def json_MarshalIndent (res : Result) (pfx indent : String) (r : Run) :
    Except GoError String × Run :=
  (.ok (res.toJSON.indent pfx indent 0), { r with marshalled := r.marshalled ++ [res] })

/-! ## The collectors and `main` -/

/-- Go `func (p *Process) getPathToExecutable() error` (main.go, lines 93-102).
Returns the receiver after the call and the error (`none` is nil). -/
def Process.getPathToExecutable (p : Process) (h : Host) (r : Run) :
    Process × Option GoError × Run :=
  match os_Executable h r with
  | (.error err, r) => (p, some err, r)
  | (.ok path, r) => ({ p with Path := path }, none, r)

/-- Go `func (p *Process) getNumberOfUsedDescriptors() error` (main.go, lines
104-114). -/
def Process.getNumberOfUsedDescriptors (p : Process) (h : Host) (r : Run) :
    Process × Option GoError × Run :=
  match syscall_Getrlimit RLIMIT_NOFILE h r with
  | (.error err, r) => (p, some err, r)
  | (.ok rlimit, r) =>
      let p := { p with Descriptor := { p.Descriptor with SoftMax := rlimit.Cur } }
      let p := { p with Descriptor := { p.Descriptor with HardMax := rlimit.Max } }
      (p, none, r)

/-- Go `func (p *Process) getMemStats() error` (main.go, lines 116-134). -/
def Process.getMemStats (p : Process) (h : Host) (r : Run) :
    Process × Option GoError × Run :=
  match runtime_ReadMemStats h r with
  | (memStats, r) =>
      let p := { p with Mem := { p.Mem with Heap := { p.Mem.Heap with Alloc := memStats.HeapAlloc } } }
      let p := { p with Mem := { p.Mem with Heap := { p.Mem.Heap with Sys := memStats.HeapSys } } }
      let p := { p with Mem := { p.Mem with Heap := { p.Mem.Heap with Inuse := memStats.HeapInuse } } }
      let p := { p with Mem := { p.Mem with Heap := { p.Mem.Heap with Idle := memStats.HeapIdle } } }
      let p := { p with Mem := { p.Mem with Heap := { p.Mem.Heap with Released := memStats.HeapReleased } } }
      let p := { p with Mem := { p.Mem with Stack := { p.Mem.Stack with Sys := memStats.StackSys } } }
      let p := { p with Mem := { p.Mem with Stack := { p.Mem.Stack with Inuse := memStats.StackInuse } } }
      let p := { p with Mem := { p.Mem with Sys := memStats.Sys } }
      let p := { p with Mem := { p.Mem with Alloc := memStats.Alloc } }
      let p := { p with Mem := { p.Mem with TotalAlloc := memStats.TotalAlloc } }
      (p, none, r)

/-- Go `func (s *System) getMemInfo() error` (main.go, lines 147-158). -/
def System.getMemInfo (s : System) (h : Host) (r : Run) :
    System × Option GoError × Run :=
  match mem_VirtualMemory h r with
  | (.error err, r) => (s, some err, r)
  | (.ok memInfo, r) =>
      let s := { s with Mem := { s.Mem with Active := memInfo.Active } }
      let s := { s with Mem := { s.Mem with Used := memInfo.Used } }
      let s := { s with Mem := { s.Mem with Total := memInfo.Total } }
      (s, none, r)

/-- Go `func (s *System) getProcessorInfo() error` (main.go, lines 160-166). -/
def System.getProcessorInfo (s : System) (h : Host) (r : Run) :
    System × Option GoError × Run :=
  match runtime_NumCPU h r with
  | (numCPU, r) =>
      let s := { s with Processor := { s.Processor with NumCPU := numCPU } }
      (s, none, r)

/-- Go `func main()` (main.go, lines 14-48). -/
def main (h : Host) : Outcome :=
  let r := Run.start
  let p := NewProcess
  match p.getPathToExecutable h r with
  | (_, some err, r) => log_Fatalf "failed to get path to exec: %v" err r
  | (p, none, r) =>
  match p.getMemStats h r with
  | (_, some err, r) => log_Fatalf "failed to get mem stats: %v" err r
  | (p, none, r) =>
  match p.getNumberOfUsedDescriptors h r with
  | (_, some err, r) => log_Fatalf "failed to get descriptors: %v" err r
  | (p, none, r) =>
  let s := NewSystem
  match s.getMemInfo h r with
  | (_, some err, r) => log_Fatalf "failed to get mem info: %v" err r
  | (s, none, r) =>
  match s.getProcessorInfo h r with
  | (_, some err, r) => log_Fatalf "failed to get processor info: %v" err r
  | (s, none, r) =>
  let result : Result := { Process := p, System := s }
  match json_MarshalIndent result "" "    " r with
  | (.error err, r) => log_Fatalf "failed to marshall result: %v" err r
  | (.ok data, r) => { fmt_Println data r with exitCode := 0 }

/-! ## Concrete hosts -/

/-- A healthy host. -/
def healthyHost : Host :=
  { args := ["hw_3"]
    environ := [("HOME", "/root")]
    Executable := .ok "/usr/local/bin/hw_3"
    ReadMemStats :=
      { Alloc := 101, TotalAlloc := 102, Sys := 103, HeapAlloc := 104, HeapSys := 105,
        HeapIdle := 106, HeapInuse := 107, HeapReleased := 108, StackInuse := 109,
        StackSys := 110 }
    Getrlimit := fun _ => .ok { Cur := 1024, Max := 4096 }
    meminfo := fun dir =>
      if dir = "/proc" then .ok { Total := 8000, Used := 5000, Active := 3000 }
      else if dir = "/srv/proc" then .ok { Total := 4000, Used := 1000, Active := 500 }
      else .error { msg := "no such file or directory" }
    NumCPU := 4 }

/-! ## Definitions used to state the properties -/

/-- The result a run collects from the answers of the five queries. -/
def collected (path : String) (m : MemStats) (rl : Rlimit) (vm : VirtualMemoryStat)
    (n : Int) : Result :=
  { Process :=
      { Path := path
        Descriptor := { SoftMax := rl.Cur, HardMax := rl.Max }
        Mem :=
          { Heap :=
              { Alloc := m.HeapAlloc, Sys := m.HeapSys, Inuse := m.HeapInuse,
                Idle := m.HeapIdle, Released := m.HeapReleased }
            Stack := { Sys := m.StackSys, Inuse := m.StackInuse }
            Sys := m.Sys, Alloc := m.Alloc, TotalAlloc := m.TotalAlloc } }
    System :=
      { Processor := { NumCPU := n }
        Mem := { Active := vm.Active, Used := vm.Used, Total := vm.Total } } }

/-- All three fallible queries of the run succeed. -/
def Host.queriesSucceed (h : Host) : Bool :=
  h.Executable.isOk && (h.Getrlimit RLIMIT_NOFILE).isOk && h.VirtualMemory.isOk

/-- The lines of the document of §6 for a result, without their line ends. -/
def documentLines (res : Result) : List String :=
  [ "\x7b",
    "    \"process\": \x7b",
    "        \"path\": " ++ quote res.Process.Path ++ ",",
    "        \"descriptor\": \x7b",
    "            \"soft_max\": " ++ formatUint res.Process.Descriptor.SoftMax ++ ",",
    "            \"hard_max\": " ++ formatUint res.Process.Descriptor.HardMax,
    "        \x7d,",
    "        \"mem\": \x7b",
    "            \"heap\": \x7b",
    "                \"alloc\": " ++ formatUint res.Process.Mem.Heap.Alloc ++ ",",
    "                \"sys\": " ++ formatUint res.Process.Mem.Heap.Sys ++ ",",
    "                \"inuse\": " ++ formatUint res.Process.Mem.Heap.Inuse ++ ",",
    "                \"idle\": " ++ formatUint res.Process.Mem.Heap.Idle ++ ",",
    "                \"released\": " ++ formatUint res.Process.Mem.Heap.Released,
    "            \x7d,",
    "            \"stack\": \x7b",
    "                \"sys\": " ++ formatUint res.Process.Mem.Stack.Sys ++ ",",
    "                \"inuse\": " ++ formatUint res.Process.Mem.Stack.Inuse,
    "            \x7d,",
    "            \"sys\": " ++ formatUint res.Process.Mem.Sys ++ ",",
    "            \"alloc\": " ++ formatUint res.Process.Mem.Alloc ++ ",",
    "            \"total_alloc\": " ++ formatUint res.Process.Mem.TotalAlloc,
    "        \x7d",
    "    \x7d,",
    "    \"system\": \x7b",
    "        \"processor\": \x7b",
    "            \"num_cpu\": " ++ formatInt res.System.Processor.NumCPU,
    "        \x7d,",
    "        \"mem\": \x7b",
    "            \"active\": " ++ formatUint res.System.Mem.Active ++ ",",
    "            \"used\": " ++ formatUint res.System.Mem.Used ++ ",",
    "            \"total\": " ++ formatUint res.System.Mem.Total,
    "        \x7d",
    "    \x7d",
    "\x7d" ]

/-- The key structure of the document of §6. -/
def documentKeys : Keys :=
  .node
    [ ("process", .node
        [ ("path", .leaf),
          ("descriptor", .node [ ("soft_max", .leaf), ("hard_max", .leaf) ]),
          ("mem", .node
            [ ("heap", .node
                [ ("alloc", .leaf), ("sys", .leaf), ("inuse", .leaf), ("idle", .leaf),
                  ("released", .leaf) ]),
              ("stack", .node [ ("sys", .leaf), ("inuse", .leaf) ]),
              ("sys", .leaf), ("alloc", .leaf), ("total_alloc", .leaf) ]) ]),
      ("system", .node
        [ ("processor", .node [ ("num_cpu", .leaf) ]),
          ("mem", .node [ ("active", .leaf), ("used", .leaf), ("total", .leaf) ]) ]) ]

/-- A host whose virtual-memory answer has used and active memory above the total. -/
def usedAboveTotalHost : Host :=
  { healthyHost with meminfo := fun _ => .ok { Total := 1000, Used := 2000, Active := 1500 } }

/-- The result the run on `healthyHost` serialises. -/
def healthyResult : Result :=
  { Process :=
      { Path := "/usr/local/bin/hw_3"
        Descriptor := { SoftMax := 1024, HardMax := 4096 }
        Mem :=
          { Heap := { Alloc := 104, Sys := 105, Inuse := 107, Idle := 106, Released := 108 }
            Stack := { Sys := 110, Inuse := 109 }
            Sys := 103, Alloc := 101, TotalAlloc := 102 } }
    System :=
      { Processor := { NumCPU := 4 }
        Mem := { Active := 3000, Used := 5000, Total := 8000 } } }

/-- A host whose resource-limit query fails, and nothing else. -/
def rlimitFailingHost : Host :=
  { healthyHost with Getrlimit := fun _ => .error { msg := "operation not permitted" } }

/-! ## The outcome of `main`, case by case, and the properties of the program -/

/-- The outcome of `main` when `os.Executable` fails. -/
theorem main_of_executable_error (h : Host) (e : GoError) (he : h.Executable = .error e) :
    main h =
      { queries := [.Executable], marshalled := [], stdout := "",
        stderr := [{ format := "failed to get path to exec: %v", err := e }],
        exitCode := 1 } := by
  simp [main, Process.getPathToExecutable, os_Executable, he, log_Fatalf, Run.ask, Run.start]

/-- The outcome of `main` when the path is resolved and `syscall.Getrlimit` fails. -/
theorem main_of_getrlimit_error (h : Host) (path : String) (e : GoError)
    (hp : h.Executable = .ok path) (hr : h.Getrlimit RLIMIT_NOFILE = .error e) :
    main h =
      { queries := [.Executable, .ReadMemStats, .Getrlimit RLIMIT_NOFILE],
        marshalled := [], stdout := "",
        stderr := [{ format := "failed to get descriptors: %v", err := e }],
        exitCode := 1 } := by
  simp [main, Process.getPathToExecutable, os_Executable, hp, hr, log_Fatalf, Run.ask,
    Run.start, Process.getMemStats, runtime_ReadMemStats, Process.getNumberOfUsedDescriptors,
    syscall_Getrlimit]

/-- The outcome of `main` when the path and the limit are read and
`mem.VirtualMemory` fails. -/
theorem main_of_virtualMemory_error (h : Host) (path : String) (rl : Rlimit) (e : GoError)
    (hp : h.Executable = .ok path) (hr : h.Getrlimit RLIMIT_NOFILE = .ok rl)
    (hv : h.VirtualMemory = .error e) :
    main h =
      { queries := [.Executable, .ReadMemStats, .Getrlimit RLIMIT_NOFILE, .VirtualMemory],
        marshalled := [], stdout := "",
        stderr := [{ format := "failed to get mem info: %v", err := e }],
        exitCode := 1 } := by
  simp [main, Process.getPathToExecutable, os_Executable, hp, hr, hv, log_Fatalf, Run.ask,
    Run.start, Process.getMemStats, runtime_ReadMemStats, Process.getNumberOfUsedDescriptors,
    syscall_Getrlimit, System.getMemInfo, mem_VirtualMemory]

/-- The outcome of `main` when the three fallible queries succeed. -/
theorem main_of_success (h : Host) (path : String) (rl : Rlimit) (vm : VirtualMemoryStat)
    (hp : h.Executable = .ok path) (hr : h.Getrlimit RLIMIT_NOFILE = .ok rl)
    (hv : h.VirtualMemory = .ok vm) :
    main h =
      { queries := [.Executable, .ReadMemStats, .Getrlimit RLIMIT_NOFILE, .VirtualMemory,
          .NumCPU],
        marshalled := [collected path h.ReadMemStats rl vm h.NumCPU],
        stdout :=
          (collected path h.ReadMemStats rl vm h.NumCPU).toJSON.indent "" "    " 0 ++ "\n",
        stderr := [],
        exitCode := 0 } := by
  simp [main, Process.getPathToExecutable, os_Executable, hp, hr, hv, log_Fatalf, Run.ask,
    Run.start, Process.getMemStats, runtime_ReadMemStats, Process.getNumberOfUsedDescriptors,
    syscall_Getrlimit, System.getMemInfo, mem_VirtualMemory, System.getProcessorInfo,
    runtime_NumCPU, json_MarshalIndent, fmt_Println, collected, NewProcess, NewSystem]

/-- The keys of the document need no escaping. -/
theorem quote_keys :
    quote "process" = "\"process\"" ∧ quote "system" = "\"system\"" ∧
    quote "path" = "\"path\"" ∧ quote "descriptor" = "\"descriptor\"" ∧
    quote "soft_max" = "\"soft_max\"" ∧ quote "hard_max" = "\"hard_max\"" ∧
    quote "mem" = "\"mem\"" ∧ quote "heap" = "\"heap\"" ∧ quote "stack" = "\"stack\"" ∧
    quote "alloc" = "\"alloc\"" ∧ quote "sys" = "\"sys\"" ∧ quote "inuse" = "\"inuse\"" ∧
    quote "idle" = "\"idle\"" ∧ quote "released" = "\"released\"" ∧
    quote "total_alloc" = "\"total_alloc\"" ∧ quote "processor" = "\"processor\"" ∧
    quote "num_cpu" = "\"num_cpu\"" ∧ quote "active" = "\"active\"" ∧
    quote "used" = "\"used\"" ∧ quote "total" = "\"total\"" := by
  decide

set_option maxRecDepth 100000 in
set_option maxHeartbeats 2000000 in
/-- The indented text of a result, line by line. -/
theorem indent_result (res : Result) :
    res.toJSON.indent "" "    " 0 = String.intercalate "\n" (documentLines res) := by
  obtain ⟨h1, h2, h3, h4, h5, h6, h7, h8, h9, h10, h11, h12, h13, h14, h15, h16, h17, h18,
    h19, h20⟩ := quote_keys
  apply String.ext
  simp only [Result.toJSON, Process.toJSON, System.toJSON, JSON.indent, JSON.indentMembers,
    newline, indentation, documentLines, String.intercalate, String.intercalate.go,
    h1, h2, h3, h4, h5, h6, h7, h8, h9, h10, h11, h12, h13, h14, h15, h16, h17, h18, h19, h20]
  simp only [String.data_append, List.cons_append, List.nil_append, List.append_assoc,
    List.singleton_append]

/-- A printed document is not empty. -/
theorem indent_ne_empty (res : Result) : res.toJSON.indent "" "    " 0 ++ "\n" ≠ "" := by
  intro hh
  have := congrArg String.length hh
  simp at this
  exact absurd this.2 (by decide)

/-- Claim C1: `main` writes a JSON document to standard output if and only if the
three fallible queries all succeed.  When they do, standard output is exactly the
indented text of the one serialised result followed by a newline, nothing is
logged and the exit code is 0; when one of them fails, nothing is written to
standard output, nothing is serialised, one diagnostic is logged and the exit
code is 1. -/
theorem main_writes_document_iff_queries_succeed (h : Host) :
    ((main h).stdout ≠ "" ↔ h.queriesSucceed = true) ∧
    (h.queriesSucceed = true →
      ∃ res, (main h).marshalled = [res] ∧
        (main h).stdout = res.toJSON.indent "" "    " 0 ++ "\n" ∧
        (main h).stderr = [] ∧ (main h).exitCode = 0) ∧
    (h.queriesSucceed = false →
      (main h).stdout = "" ∧ (main h).marshalled = [] ∧
        (main h).stderr.length = 1 ∧ (main h).exitCode = 1) := by
  unfold Host.queriesSucceed
  rcases hp : h.Executable with e | path
  · simp [main_of_executable_error h e hp, Except.isOk, Except.toBool]
  · rcases hr : h.Getrlimit RLIMIT_NOFILE with e | rl
    · simp [main_of_getrlimit_error h path e hp hr, Except.isOk, Except.toBool]
    · rcases hv : h.VirtualMemory with e | vm
      · simp [main_of_virtualMemory_error h path rl e hp hr hv, Except.isOk, Except.toBool]
      · have hne := indent_ne_empty (collected path h.ReadMemStats rl vm h.NumCPU)
        simp [main_of_success h path rl vm hp hr hv, Except.isOk, Except.toBool, hne]

/-- Instance of `main_writes_document_iff_queries_succeed`, both directions: the
healthy host gets a document and exit code 0, the host whose resource-limit query
fails gets an empty standard output and exit code 1. -/
theorem main_writes_document_iff_queries_succeed_witness :
    (healthyHost.queriesSucceed = true ∧
      ∃ res, (main healthyHost).marshalled = [res] ∧
        (main healthyHost).stdout = res.toJSON.indent "" "    " 0 ++ "\n" ∧
        (main healthyHost).stderr = [] ∧ (main healthyHost).exitCode = 0) ∧
    (rlimitFailingHost.queriesSucceed = false ∧
      (main rlimitFailingHost).stdout = "" ∧ (main rlimitFailingHost).marshalled = [] ∧
        (main rlimitFailingHost).stderr.length = 1 ∧ (main rlimitFailingHost).exitCode = 1) :=
  ⟨⟨by decide, (main_writes_document_iff_queries_succeed healthyHost).2.1 (by decide)⟩,
   ⟨by decide, (main_writes_document_iff_queries_succeed rlimitFailingHost).2.2 (by decide)⟩⟩

/-- The message of the diagnostic of the path step. -/
theorem message_path (e : GoError) :
    Diagnostic.message { format := "failed to get path to exec: %v", err := e }
      = "failed to get path to exec: " ++ e.msg := by
  apply String.ext
  simp [Diagnostic.message, sprintfChars]

/-- The message of the diagnostic of the descriptor step. -/
theorem message_descriptors (e : GoError) :
    Diagnostic.message { format := "failed to get descriptors: %v", err := e }
      = "failed to get descriptors: " ++ e.msg := by
  apply String.ext
  simp [Diagnostic.message, sprintfChars]

/-- The message of the diagnostic of the virtual-memory step. -/
theorem message_memInfo (e : GoError) :
    Diagnostic.message { format := "failed to get mem info: %v", err := e }
      = "failed to get mem info: " ++ e.msg := by
  apply String.ext
  simp [Diagnostic.message, sprintfChars]

/-- Claim C2: `main` queries the host in the order executable path, allocator
statistics, descriptor limits, host virtual memory, CPU count, and stops at the
first query that fails: the queries made are exactly those up to and including
the failing one, and exactly one diagnostic is logged, whose message is the text
naming that step followed by the text of its error.  When all succeed the five
queries are made in that order and nothing is logged. -/
theorem main_stops_at_first_failure (h : Host) :
    (∀ e, h.Executable = .error e →
      (main h).queries = [.Executable] ∧
      (main h).stderr.map Diagnostic.message = ["failed to get path to exec: " ++ e.msg]) ∧
    (∀ path e, h.Executable = .ok path → h.Getrlimit RLIMIT_NOFILE = .error e →
      (main h).queries = [.Executable, .ReadMemStats, .Getrlimit RLIMIT_NOFILE] ∧
      (main h).stderr.map Diagnostic.message = ["failed to get descriptors: " ++ e.msg]) ∧
    (∀ path rl e, h.Executable = .ok path → h.Getrlimit RLIMIT_NOFILE = .ok rl →
        h.VirtualMemory = .error e →
      (main h).queries =
        [.Executable, .ReadMemStats, .Getrlimit RLIMIT_NOFILE, .VirtualMemory] ∧
      (main h).stderr.map Diagnostic.message = ["failed to get mem info: " ++ e.msg]) ∧
    (∀ path rl vm, h.Executable = .ok path → h.Getrlimit RLIMIT_NOFILE = .ok rl →
        h.VirtualMemory = .ok vm →
      (main h).queries =
        [.Executable, .ReadMemStats, .Getrlimit RLIMIT_NOFILE, .VirtualMemory, .NumCPU] ∧
      (main h).stderr = []) := by
  refine ⟨?_, ?_, ?_, ?_⟩
  · intro e he
    simp [main_of_executable_error h e he, message_path]
  · intro path e hp hr
    simp [main_of_getrlimit_error h path e hp hr, message_descriptors]
  · intro path rl e hp hr hv
    simp [main_of_virtualMemory_error h path rl e hp hr hv, message_memInfo]
  · intro path rl vm hp hr hv
    simp [main_of_success h path rl vm hp hr hv]

/-- Instance of `main_stops_at_first_failure` on the host whose resource-limit
query alone fails: three queries are made, the virtual-memory and CPU queries are
not, and the one diagnostic is the descriptor one. -/
theorem main_stops_at_first_failure_witness :
    (main rlimitFailingHost).queries = [.Executable, .ReadMemStats, .Getrlimit RLIMIT_NOFILE] ∧
    (main rlimitFailingHost).stderr.map Diagnostic.message
      = ["failed to get descriptors: " ++ "operation not permitted"] :=
  (main_stops_at_first_failure rlimitFailingHost).2.1 "/usr/local/bin/hw_3"
    { msg := "operation not permitted" } rfl rfl

/-- Claim C3: in a successful run the one value `main` serialises carries every
query answer in its own field: the record is exactly the one built from the
executable path, the RLIMIT_NOFILE limit (current value as soft_max, maximum as
hard_max), the allocator statistics, the CPU count and the virtual-memory
figures, and each JSON path of the document leads to the answer named for it. -/
theorem main_result_carries_query_values (h : Host) (path : String) (rl : Rlimit)
    (vm : VirtualMemoryStat) (hp : h.Executable = .ok path)
    (hr : h.Getrlimit RLIMIT_NOFILE = .ok rl) (hv : h.VirtualMemory = .ok vm) :
    ∃ res, (main h).marshalled = [res] ∧
      res =
        { Process :=
            { Path := path
              Descriptor := { SoftMax := rl.Cur, HardMax := rl.Max }
              Mem :=
                { Heap :=
                    { Alloc := h.ReadMemStats.HeapAlloc, Sys := h.ReadMemStats.HeapSys,
                      Inuse := h.ReadMemStats.HeapInuse, Idle := h.ReadMemStats.HeapIdle,
                      Released := h.ReadMemStats.HeapReleased }
                  Stack :=
                    { Sys := h.ReadMemStats.StackSys, Inuse := h.ReadMemStats.StackInuse }
                  Sys := h.ReadMemStats.Sys, Alloc := h.ReadMemStats.Alloc,
                  TotalAlloc := h.ReadMemStats.TotalAlloc } }
          System :=
            { Processor := { NumCPU := h.NumCPU }
              Mem := { Active := vm.Active, Used := vm.Used, Total := vm.Total } } } ∧
      res.toJSON.at? ["process", "path"] = some (.str path) ∧
      res.toJSON.at? ["process", "descriptor", "soft_max"] = some (.uint rl.Cur) ∧
      res.toJSON.at? ["process", "descriptor", "hard_max"] = some (.uint rl.Max) ∧
      res.toJSON.at? ["process", "mem", "heap", "alloc"]
        = some (.uint h.ReadMemStats.HeapAlloc) ∧
      res.toJSON.at? ["process", "mem", "heap", "sys"]
        = some (.uint h.ReadMemStats.HeapSys) ∧
      res.toJSON.at? ["process", "mem", "heap", "inuse"]
        = some (.uint h.ReadMemStats.HeapInuse) ∧
      res.toJSON.at? ["process", "mem", "heap", "idle"]
        = some (.uint h.ReadMemStats.HeapIdle) ∧
      res.toJSON.at? ["process", "mem", "heap", "released"]
        = some (.uint h.ReadMemStats.HeapReleased) ∧
      res.toJSON.at? ["process", "mem", "stack", "sys"]
        = some (.uint h.ReadMemStats.StackSys) ∧
      res.toJSON.at? ["process", "mem", "stack", "inuse"]
        = some (.uint h.ReadMemStats.StackInuse) ∧
      res.toJSON.at? ["process", "mem", "sys"] = some (.uint h.ReadMemStats.Sys) ∧
      res.toJSON.at? ["process", "mem", "alloc"] = some (.uint h.ReadMemStats.Alloc) ∧
      res.toJSON.at? ["process", "mem", "total_alloc"]
        = some (.uint h.ReadMemStats.TotalAlloc) ∧
      res.toJSON.at? ["system", "processor", "num_cpu"] = some (.int h.NumCPU) ∧
      res.toJSON.at? ["system", "mem", "active"] = some (.uint vm.Active) ∧
      res.toJSON.at? ["system", "mem", "used"] = some (.uint vm.Used) ∧
      res.toJSON.at? ["system", "mem", "total"] = some (.uint vm.Total) := by
  refine ⟨collected path h.ReadMemStats rl vm h.NumCPU, ?_, rfl, ?_⟩
  · rw [main_of_success h path rl vm hp hr hv]
  · refine ⟨rfl, rfl, rfl, rfl, rfl, rfl, rfl, rfl, rfl, rfl, rfl, rfl, rfl, rfl, rfl, rfl, rfl⟩

/-- Instance of `main_result_carries_query_values` on the healthy host: the limit
1024/4096 arrives as soft_max 1024 and hard_max 4096, the total heap figure 103
under process.mem.sys and the heap figure 105 under process.mem.heap.sys. -/
theorem main_result_carries_query_values_witness :
    ∃ res, (main healthyHost).marshalled = [res] ∧
      res.toJSON.at? ["process", "path"] = some (.str "/usr/local/bin/hw_3") ∧
      res.toJSON.at? ["process", "descriptor", "soft_max"] = some (.uint 1024) ∧
      res.toJSON.at? ["process", "descriptor", "hard_max"] = some (.uint 4096) ∧
      res.toJSON.at? ["process", "mem", "heap", "sys"] = some (.uint 105) ∧
      res.toJSON.at? ["process", "mem", "sys"] = some (.uint 103) ∧
      res.toJSON.at? ["system", "processor", "num_cpu"] = some (.int 4) :=
  match main_result_carries_query_values healthyHost "/usr/local/bin/hw_3"
      { Cur := 1024, Max := 4096 } { Total := 8000, Used := 5000, Active := 3000 }
      rfl rfl rfl with
  | ⟨res, hm, _, h1, h2, h3, _, h5, _, _, _, _, _, h11, _, _, h14, _⟩ =>
    ⟨res, hm, h1, h2, h3, h5, h11, h14⟩

/-- Claim C4: in a successful run the document written to standard output is the
JSON object with the two top-level keys "process" and "system", in that order,
and below them exactly the keys of §6 in declaration order; its text is the 35
lines of `documentLines`, each indented by four spaces per nesting level, ended
by a newline. -/
theorem main_document_shape (h : Host) (path : String) (rl : Rlimit)
    (vm : VirtualMemoryStat) (hp : h.Executable = .ok path)
    (hr : h.Getrlimit RLIMIT_NOFILE = .ok rl) (hv : h.VirtualMemory = .ok vm) :
    ∃ res, (main h).marshalled = [res] ∧
      res.toJSON.keys = documentKeys ∧
      (main h).stdout = res.toJSON.indent "" "    " 0 ++ "\n" ∧
      (main h).stdout = String.intercalate "\n" (documentLines res) ++ "\n" := by
  refine ⟨collected path h.ReadMemStats rl vm h.NumCPU, ?_, rfl, ?_, ?_⟩
  · rw [main_of_success h path rl vm hp hr hv]
  · rw [main_of_success h path rl vm hp hr hv]
  · rw [main_of_success h path rl vm hp hr hv, indent_result]

/-- Instance of `main_document_shape` on the healthy host, with the text of the
document written out. -/
theorem main_document_shape_witness :
    ∃ res, (main healthyHost).marshalled = [res] ∧ res.toJSON.keys = documentKeys ∧
    (main healthyHost).stdout =
      String.intercalate "\n"
        [ "\x7b",
          "    \"process\": \x7b",
          "        \"path\": \"/usr/local/bin/hw_3\",",
          "        \"descriptor\": \x7b",
          "            \"soft_max\": 1024,",
          "            \"hard_max\": 4096",
          "        \x7d,",
          "        \"mem\": \x7b",
          "            \"heap\": \x7b",
          "                \"alloc\": 104,",
          "                \"sys\": 105,",
          "                \"inuse\": 107,",
          "                \"idle\": 106,",
          "                \"released\": 108",
          "            \x7d,",
          "            \"stack\": \x7b",
          "                \"sys\": 110,",
          "                \"inuse\": 109",
          "            \x7d,",
          "            \"sys\": 103,",
          "            \"alloc\": 101,",
          "            \"total_alloc\": 102",
          "        \x7d",
          "    \x7d,",
          "    \"system\": \x7b",
          "        \"processor\": \x7b",
          "            \"num_cpu\": 4",
          "        \x7d,",
          "        \"mem\": \x7b",
          "            \"active\": 3000,",
          "            \"used\": 5000,",
          "            \"total\": 8000",
          "        \x7d",
          "    \x7d",
          "\x7d" ] ++ "\n" :=
  match main_document_shape healthyHost "/usr/local/bin/hw_3"
      { Cur := 1024, Max := 4096 } { Total := 8000, Used := 5000, Active := 3000 }
      rfl rfl rfl with
  | ⟨res, hm, hk, _, _⟩ => ⟨res, hm, hk, by decide!⟩

/-- Claim C5: under the contract of the operating system for resource limits (a
limit it returns has its current value at most its maximum), every document the
program emits has descriptor.soft_max ≤ descriptor.hard_max: the two values of
the serialised result, which are the two numbers at the JSON paths
process.descriptor.soft_max and process.descriptor.hard_max of the text written
to standard output, are the current and the maximum value of the limit. -/
theorem soft_max_le_hard_max (h : Host)
    (hos : ∀ rl, h.Getrlimit RLIMIT_NOFILE = .ok rl → rl.Cur ≤ rl.Max)
    (res : Result) (hres : res ∈ (main h).marshalled) :
    res.Process.Descriptor.SoftMax ≤ res.Process.Descriptor.HardMax ∧
    (main h).stdout = String.intercalate "\n" (documentLines res) ++ "\n" ∧
    ∃ rl, h.Getrlimit RLIMIT_NOFILE = .ok rl ∧
      res.Process.Descriptor.SoftMax = rl.Cur ∧ res.Process.Descriptor.HardMax = rl.Max ∧
      res.toJSON.at? ["process", "descriptor", "soft_max"] = some (.uint rl.Cur) ∧
      res.toJSON.at? ["process", "descriptor", "hard_max"] = some (.uint rl.Max) := by
  rcases hp : h.Executable with e | path
  · simp [main_of_executable_error h e hp] at hres
  · rcases hr : h.Getrlimit RLIMIT_NOFILE with e | rl
    · simp [main_of_getrlimit_error h path e hp hr] at hres
    · rcases hv : h.VirtualMemory with e | vm
      · simp [main_of_virtualMemory_error h path rl e hp hr hv] at hres
      · have hle : rl.Cur ≤ rl.Max := hos rl hr
        simp only [main_of_success h path rl vm hp hr hv, List.mem_singleton] at hres
        subst hres
        refine ⟨hle, ?_, rl, rfl, rfl, rfl, rfl, rfl⟩
        rw [main_of_success h path rl vm hp hr hv, indent_result]

/-- Instance of `soft_max_le_hard_max` on the healthy host, whose limit is
1024/4096. -/
theorem soft_max_le_hard_max_witness :
    healthyResult ∈ (main healthyHost).marshalled ∧
    healthyResult.Process.Descriptor.SoftMax = 1024 ∧
    healthyResult.Process.Descriptor.HardMax = 4096 ∧
    healthyResult.Process.Descriptor.SoftMax ≤ healthyResult.Process.Descriptor.HardMax :=
  ⟨by decide, rfl, rfl,
   (soft_max_le_hard_max healthyHost
      (fun rl hrl => by
        have h0 : healthyHost.Getrlimit RLIMIT_NOFILE = .ok { Cur := 1024, Max := 4096 } := rfl
        rw [h0] at hrl
        cases hrl
        decide)
      healthyResult (by decide)).1⟩

/-- Claim C6: under the contract of the Go runtime for `runtime.NumCPU` (it
reports at least one CPU), every document the program emits has
system.processor.num_cpu ≥ 1: the value of the serialised result, which is the
number at the JSON path system.processor.num_cpu of the text written to standard
output, is the count the runtime reported, held in a signed field. -/
theorem num_cpu_ge_one (h : Host) (hcpu : 1 ≤ h.NumCPU)
    (res : Result) (hres : res ∈ (main h).marshalled) :
    1 ≤ res.System.Processor.NumCPU ∧
    (main h).stdout = String.intercalate "\n" (documentLines res) ++ "\n" ∧
    res.System.Processor.NumCPU = h.NumCPU ∧
    res.toJSON.at? ["system", "processor", "num_cpu"] = some (.int h.NumCPU) := by
  rcases hp : h.Executable with e | path
  · simp [main_of_executable_error h e hp] at hres
  · rcases hr : h.Getrlimit RLIMIT_NOFILE with e | rl
    · simp [main_of_getrlimit_error h path e hp hr] at hres
    · rcases hv : h.VirtualMemory with e | vm
      · simp [main_of_virtualMemory_error h path rl e hp hr hv] at hres
      · simp only [main_of_success h path rl vm hp hr hv, List.mem_singleton] at hres
        subst hres
        refine ⟨hcpu, ?_, rfl, rfl⟩
        rw [main_of_success h path rl vm hp hr hv, indent_result]

/-- Instance of `num_cpu_ge_one` on the healthy host, which has 4 CPUs. -/
theorem num_cpu_ge_one_witness :
    healthyResult ∈ (main healthyHost).marshalled ∧
    healthyResult.System.Processor.NumCPU = 4 ∧
    1 ≤ healthyResult.System.Processor.NumCPU :=
  ⟨by decide, rfl, (num_cpu_ge_one healthyHost (by decide) healthyResult (by decide)).1⟩

/-- Counterexample to claim C7 as stated: on a host whose virtual-memory answer is
total 1000, used 2000, active 1500, the program exits with code 0 and prints a
document whose used and active are both above its total. -/
theorem main_emits_used_and_active_above_total :
    (main usedAboveTotalHost).exitCode = 0 ∧
    (main usedAboveTotalHost).marshalled.map
        (fun res => (res.System.Mem.Active, res.System.Mem.Used, res.System.Mem.Total))
      = [(1500, 2000, 1000)] ∧
    (¬ ∀ res ∈ (main usedAboveTotalHost).marshalled,
        res.System.Mem.Used ≤ res.System.Mem.Total ∧
        res.System.Mem.Active ≤ res.System.Mem.Total) ∧
    (main usedAboveTotalHost).stdout =
      String.intercalate "\n"
        [ "\x7b",
          "    \"process\": \x7b",
          "        \"path\": \"/usr/local/bin/hw_3\",",
          "        \"descriptor\": \x7b",
          "            \"soft_max\": 1024,",
          "            \"hard_max\": 4096",
          "        \x7d,",
          "        \"mem\": \x7b",
          "            \"heap\": \x7b",
          "                \"alloc\": 104,",
          "                \"sys\": 105,",
          "                \"inuse\": 107,",
          "                \"idle\": 106,",
          "                \"released\": 108",
          "            \x7d,",
          "            \"stack\": \x7b",
          "                \"sys\": 110,",
          "                \"inuse\": 109",
          "            \x7d,",
          "            \"sys\": 103,",
          "            \"alloc\": 101,",
          "            \"total_alloc\": 102",
          "        \x7d",
          "    \x7d,",
          "    \"system\": \x7b",
          "        \"processor\": \x7b",
          "            \"num_cpu\": 4",
          "        \x7d,",
          "        \"mem\": \x7b",
          "            \"active\": 1500,",
          "            \"used\": 2000,",
          "            \"total\": 1000",
          "        \x7d",
          "    \x7d",
          "\x7d" ] ++ "\n" := by
  decide!

/-- Claim C7, amended: the active, used and total of system.mem in every document
the program emits are the Active, Used and Total of the virtual-memory answer of
the host, copied as they are; so used ≤ total and active ≤ total hold in the
document exactly when they hold in that answer. -/
theorem system_mem_order_is_the_reported_order (h : Host) (vm : VirtualMemoryStat)
    (res : Result) (hv : h.VirtualMemory = .ok vm) (hres : res ∈ (main h).marshalled) :
    res.System.Mem.Active = vm.Active ∧ res.System.Mem.Used = vm.Used ∧
    res.System.Mem.Total = vm.Total ∧
    res.toJSON.at? ["system", "mem", "active"] = some (.uint vm.Active) ∧
    res.toJSON.at? ["system", "mem", "used"] = some (.uint vm.Used) ∧
    res.toJSON.at? ["system", "mem", "total"] = some (.uint vm.Total) ∧
    (res.System.Mem.Used ≤ res.System.Mem.Total ↔ vm.Used ≤ vm.Total) ∧
    (res.System.Mem.Active ≤ res.System.Mem.Total ↔ vm.Active ≤ vm.Total) := by
  rcases hp : h.Executable with e | path
  · simp [main_of_executable_error h e hp] at hres
  · rcases hr : h.Getrlimit RLIMIT_NOFILE with e | rl
    · simp [main_of_getrlimit_error h path e hp hr] at hres
    · simp only [main_of_success h path rl vm hp hr hv, List.mem_singleton] at hres
      subst hres
      exact ⟨rfl, rfl, rfl, rfl, rfl, rfl, Iff.rfl, Iff.rfl⟩

/-- Instance of `system_mem_order_is_the_reported_order` on the healthy host, whose
memory is total 8000, used 5000, active 3000. -/
theorem system_mem_order_is_the_reported_order_witness :
    healthyResult ∈ (main healthyHost).marshalled ∧
    healthyResult.System.Mem.Used ≤ healthyResult.System.Mem.Total ∧
    healthyResult.System.Mem.Active ≤ healthyResult.System.Mem.Total :=
  match system_mem_order_is_the_reported_order healthyHost
      { Total := 8000, Used := 5000, Active := 3000 } healthyResult rfl (by decide) with
  | ⟨_, _, _, _, _, _, h7, h8⟩ => ⟨by decide, h7.mpr (by decide), h8.mpr (by decide)⟩

/-- Claim C8: `getMemStats` and `getProcessorInfo` return a nil error for every
receiver, every host and every state of the run; so in no run of `main` is a
diagnostic logged by the branches they guard: every diagnostic of a run has one
of the formats of the three fallible steps, never "failed to get mem stats: %v"
nor "failed to get processor info: %v". -/
theorem getMemStats_and_getProcessorInfo_never_fail :
    (∀ (p : Process) (h : Host) (r : Run), (p.getMemStats h r).2.1 = none) ∧
    (∀ (s : System) (h : Host) (r : Run), (s.getProcessorInfo h r).2.1 = none) ∧
    (∀ (h : Host) (d : Diagnostic), d ∈ (main h).stderr →
      d.format ∈ ["failed to get path to exec: %v", "failed to get descriptors: %v",
        "failed to get mem info: %v"] ∧
      d.format ≠ "failed to get mem stats: %v" ∧
      d.format ≠ "failed to get processor info: %v") := by
  refine ⟨fun p h r => rfl, fun s h r => rfl, ?_⟩
  intro h d hd
  rcases hp : h.Executable with e | path
  · simp only [main_of_executable_error h e hp, List.mem_singleton] at hd
    subst hd
    dsimp only
    decide
  · rcases hr : h.Getrlimit RLIMIT_NOFILE with e | rl
    · simp only [main_of_getrlimit_error h path e hp hr, List.mem_singleton] at hd
      subst hd
      dsimp only
      decide
    · rcases hv : h.VirtualMemory with e | vm
      · simp only [main_of_virtualMemory_error h path rl e hp hr hv,
          List.mem_singleton] at hd
        subst hd
        dsimp only
        decide
      · simp [main_of_success h path rl vm hp hr hv] at hd

/-- Instance of `getMemStats_and_getProcessorInfo_never_fail`: on the zero-valued
receivers and the healthy host both steps return nil, and the diagnostic of the
run whose resource-limit query fails is not one of the two unreachable ones. -/
theorem getMemStats_and_getProcessorInfo_never_fail_witness :
    (NewProcess.getMemStats healthyHost Run.start).2.1 = none ∧
    (NewSystem.getProcessorInfo healthyHost Run.start).2.1 = none ∧
    (main rlimitFailingHost).stderr =
      [{ format := "failed to get descriptors: %v",
         err := { msg := "operation not permitted" } }] ∧
    ("failed to get descriptors: %v" ≠ "failed to get mem stats: %v" ∧
      "failed to get descriptors: %v" ≠ "failed to get processor info: %v") :=
  ⟨getMemStats_and_getProcessorInfo_never_fail.1 NewProcess healthyHost Run.start,
   getMemStats_and_getProcessorInfo_never_fail.2.1 NewSystem healthyHost Run.start,
   by decide,
   (getMemStats_and_getProcessorInfo_never_fail.2.2 rlimitFailingHost
      { format := "failed to get descriptors: %v",
        err := { msg := "operation not permitted" } } (by decide)).2⟩

/-- Claim C10: every collector writes only its own part of its own snapshot.
For every receiver, host and run state: `getPathToExecutable` leaves Descriptor
and Mem as they were, `getNumberOfUsedDescriptors` leaves Path and Mem,
`getMemStats` leaves Path and Descriptor, `getMemInfo` leaves Processor,
`getProcessorInfo` leaves Mem; a collector that returns an error leaves its
receiver as it was; and each of the five parts of the result `main` serialises
is the value its own collector writes on a fresh snapshot, so no later step of
either snapshot changed it. -/
theorem collectors_write_only_their_own_fields (p : Process) (s : System) (h : Host)
    (r : Run) :
    ((p.getPathToExecutable h r).1.Descriptor = p.Descriptor ∧
      (p.getPathToExecutable h r).1.Mem = p.Mem ∧
      ((p.getPathToExecutable h r).2.1 ≠ none → (p.getPathToExecutable h r).1 = p)) ∧
    ((p.getNumberOfUsedDescriptors h r).1.Path = p.Path ∧
      (p.getNumberOfUsedDescriptors h r).1.Mem = p.Mem ∧
      ((p.getNumberOfUsedDescriptors h r).2.1 ≠ none →
        (p.getNumberOfUsedDescriptors h r).1 = p)) ∧
    ((p.getMemStats h r).1.Path = p.Path ∧
      (p.getMemStats h r).1.Descriptor = p.Descriptor ∧
      ((p.getMemStats h r).2.1 ≠ none → (p.getMemStats h r).1 = p)) ∧
    ((s.getMemInfo h r).1.Processor = s.Processor ∧
      ((s.getMemInfo h r).2.1 ≠ none → (s.getMemInfo h r).1 = s)) ∧
    ((s.getProcessorInfo h r).1.Mem = s.Mem ∧
      ((s.getProcessorInfo h r).2.1 ≠ none → (s.getProcessorInfo h r).1 = s)) ∧
    (∀ res ∈ (main h).marshalled,
      res.Process.Path = (NewProcess.getPathToExecutable h r).1.Path ∧
      res.Process.Mem = (NewProcess.getMemStats h r).1.Mem ∧
      res.Process.Descriptor = (NewProcess.getNumberOfUsedDescriptors h r).1.Descriptor ∧
      res.System.Mem = (NewSystem.getMemInfo h r).1.Mem ∧
      res.System.Processor = (NewSystem.getProcessorInfo h r).1.Processor) := by
  refine ⟨?_, ?_, ?_, ?_, ?_, ?_⟩
  · rcases hp : h.Executable with e | path <;>
      simp [Process.getPathToExecutable, os_Executable, hp]
  · rcases hr : h.Getrlimit RLIMIT_NOFILE with e | rl <;>
      simp [Process.getNumberOfUsedDescriptors, syscall_Getrlimit, hr]
  · simp [Process.getMemStats, runtime_ReadMemStats]
  · rcases hv : h.VirtualMemory with e | vm <;>
      simp [System.getMemInfo, mem_VirtualMemory, hv]
  · simp [System.getProcessorInfo, runtime_NumCPU]
  · intro res hres
    rcases hp : h.Executable with e | path
    · simp [main_of_executable_error h e hp] at hres
    · rcases hr : h.Getrlimit RLIMIT_NOFILE with e | rl
      · simp [main_of_getrlimit_error h path e hp hr] at hres
      · rcases hv : h.VirtualMemory with e | vm
        · simp [main_of_virtualMemory_error h path rl e hp hr hv] at hres
        · simp only [main_of_success h path rl vm hp hr hv, List.mem_singleton] at hres
          subst hres
          simp [collected, Process.getPathToExecutable, os_Executable, hp,
            Process.getNumberOfUsedDescriptors, syscall_Getrlimit, hr, Process.getMemStats,
            runtime_ReadMemStats, System.getMemInfo, mem_VirtualMemory, hv,
            System.getProcessorInfo, runtime_NumCPU, NewProcess, NewSystem]

/-- Instance of `collectors_write_only_their_own_fields` on a filled process
snapshot and the host whose resource-limit query fails: the failing collector
returns its receiver as it was, and the path collector changes the path only. -/
theorem collectors_write_only_their_own_fields_witness :
    (healthyResult.Process.getNumberOfUsedDescriptors rlimitFailingHost Run.start).2.1
      = some { msg := "operation not permitted" } ∧
    (healthyResult.Process.getNumberOfUsedDescriptors rlimitFailingHost Run.start).1
      = healthyResult.Process ∧
    (NewProcess.getPathToExecutable rlimitFailingHost Run.start).1.Path
      = "/usr/local/bin/hw_3" ∧
    (healthyResult.Process.getPathToExecutable rlimitFailingHost Run.start).1.Mem
      = healthyResult.Process.Mem :=
  ⟨by decide,
   (collectors_write_only_their_own_fields healthyResult.Process healthyResult.System
      rlimitFailingHost Run.start).2.1.2.2 (by decide),
   by decide,
   (collectors_write_only_their_own_fields healthyResult.Process healthyResult.System
      rlimitFailingHost Run.start).1.2.1⟩

end HW3
